import Mathlib

/-!
Verification of the mazer CLI dispatch layer.

A shallow embedding, in Lean 4, of `src/ansible_galaxy_cli/cli/galaxy.py`
(the command resolution and dispatch front-end of the mazer package-manager
client), together with theorems settling the specification claims about it.

Modelling conventions:

* Nullable Python strings are `Option String` (`none` = Python `None`).
  Python truthiness of such a value (`None` and `""` are falsy) is
  `strTruthy`.  `store_true` flags whose default is `None` are
  `Option Bool`; their truthiness is `= some true`.
* Attributes whose *presence* on the options record matters (the source
  uses `hasattr`) are wrapped in a second `Option`: the outer layer is
  "does the parsed options record carry this attribute at all" (it depends
  on which option schema for the action ran), the inner layer is the value.
* `os.path.expanduser` consults the home directory, so its model takes the
  home directory as an explicit argument; calling it on `None` raises in
  Python, so the `Option`-taking version returns `Except`.
  `os.path.abspath` takes the current working directory explicitly.  Both
  are modelled only as far as the claims need (leading-tilde replacement,
  prefixing the cwd); path normalisation is not modelled.
* Exceptions are the `PyExc` inductive; a function that can raise returns
  `Except PyExc _`.
* Observable effects of the dispatch flow (building a context, creating
  the REST-API collaborator, invoking an external action handler, logging
  an exception) are recorded as an explicit `Event` trace, so theorems can
  state that something was *not* invoked.  The external handlers
  themselves (the `ansible_galaxy.actions.*` modules) are outside the
  file under verification; their outcome is a parameter
  `hres : Except PyExc Nat` (raise, or return a return code).
-/

/-- Python truthiness of a nullable string: `None` and `""` are falsy. -/
def strTruthy : Option String → Bool
  | none => false
  | some s => !(s == "")

/-- Python `a or b` for nullable strings: yields `b` whenever `a` is falsy
(`None` or `""`). -/
def pyOr (a b : Option String) : Option String :=
  if strTruthy a then a else b

/-- Exceptions that the embedded code can raise.  `galaxyCliError` and
`cliOptionsError` are the domain errors from `ansible_galaxy_cli.exceptions`;
`typeError` models the Python `TypeError` (raised e.g. by
`os.path.expanduser(None)`); `other` stands for an arbitrary unexpected
exception escaping an external handler. -/
inductive PyExc
  | galaxyCliError (msg : String)
  | cliOptionsError (msg : String)
  | typeError
  | other (n : Nat)
deriving DecidableEq, Repr

/-- Model of `os.path.expanduser` on a (non-`None`) string: a leading `~`
is replaced by the home directory.  (Python also supports `~user`; no claim
exercises that, and no further normalisation happens in `expanduser`.) -/
def expanduserStr (home : String) (s : String) : String :=
  match s.data with
  | [] => s
  | c :: rest =>
    if c = '~' ∧ rest = [] then home
    else if c = '~' ∧ rest.head? = some '/' then home ++ String.mk rest
    else s

/-- Does a path begin with the home-directory shorthand character? -/
def hasTilde (s : String) : Bool :=
  match s.data with
  | c :: _ => c = '~'
  | [] => false

/-- Model of `os.path.expanduser` applied to a nullable value: Python raises
`TypeError` when handed `None`. -/
def expanduser (home : String) : Option String → Except PyExc String
  | none => .error .typeError
  | some s => .ok (expanduserStr home s)

/-- Model of `os.path.abspath`: an already-absolute path is kept, anything
else is prefixed with the current working directory (`abspath("")` is the
cwd itself).  Path normalisation (`..`, duplicate slashes) is not modelled;
no claim depends on it. -/
def abspath (cwd : String) (p : String) : String :=
  match p.data with
  | [] => cwd
  | '/' :: _ => p
  | _ => cwd ++ "/" ++ p

/-- The `server` block of the configuration document
(`{url: string, ignore_certs: bool}`). -/
structure ServerInfo where
  url : String
  ignore_certs : Bool
deriving DecidableEq, Repr

/-- The loaded configuration document, as consumed by the CLI:
`server`, `content_path`, `global_content_path`
(the two paths are nullable strings in the YAML document). -/
structure GalaxyConfig where
  server : ServerInfo
  content_path : Option String
  global_content_path : Option String
deriving DecidableEq, Repr

/-- The parsed per-invocation options record (`optparse` result).

`content_path` and `global_install` are read through `hasattr` in the
source, so the outer `Option` is attribute *presence* (the `-C` flag is
registered for every action but `version`; `-g` only for `install`), and
the inner value is the parsed flag value (`None` default).
`server_url` and `ignore_certs` are read through `getattr(_, _, None)`,
which makes an absent attribute indistinguishable from `None`, so a single
`Option` layer suffices. -/
structure CLIOptions where
  content_path : Option (Option String)
  global_install : Option (Option Bool)
  server_url : Option String
  ignore_certs : Option Bool
deriving DecidableEq, Repr

/-- The execution context (`ansible_galaxy.models.context.GalaxyContext`):
server settings plus the resolved content path. -/
structure GalaxyContext where
  server : ServerInfo
  content_path : String
deriving DecidableEq, Repr

/-- The enumerated CLI actions (`GalaxyCLI.VALID_ACTIONS`). -/
inductive CliAction
  | build | info | install | list | remove | version
deriving DecidableEq, Repr

/-- The match-filter variants of `ansible_galaxy.matchers` as the CLI
constructs them.  Their selection semantics live in the external
`matchers` module; the dispatch layer only chooses the variant and the
argument list, which is all the claims about this file concern. -/
inductive MatchFilter
  | matchAll
  | matchLabels (labels : List String)
  | matchNamespacesOrLabels (terms : List String)
deriving DecidableEq, Repr

/-- What the dispatcher hands to an external action handler: which handler
was invoked, and the match filter where the action passes one. -/
structure HandlerCall where
  action : CliAction
  filter : Option MatchFilter
deriving DecidableEq, Repr

/-- Observable events of one invocation, in order of occurrence. -/
inductive Event
  | contextBuilt
  | apiCreated
  | invoked (call : HandlerCall)
  | loggedException
deriving DecidableEq, Repr

/-- The fixed guidance suffix of `exit_without_ignore`. -/
def ignore_error_blurb : String :=
  "- you can use --ignore-errors to skip failed content items and finish processing the list."

/-- Function `exit_without_ignore(ignore_errors, msg)`: raises `GalaxyCliError`
unless `ignore_errors` is truthy; the message is the blurb, prefixed by
`msg` and a separator when `msg` is truthy. -/
def exit_without_ignore (ignore_errors : Bool) (msg : Option String) :
    Except PyExc Unit :=
  if !ignore_errors then
    let message :=
      if strTruthy msg then (msg.getD "") ++ ":\n" ++ ignore_error_blurb
      else ignore_error_blurb
    .error (.galaxyCliError message)
  else .ok ()

/-- The process environment as far as the CLI consults it: the two
configuration-path variables. -/
structure EnvState where
  mazer_config : Option String
  ansible_galaxy_config : Option String
deriving DecidableEq, Repr

/-- Model of `os.environ.get(var, None)` restricted to the two variables the CLI
reads. -/
def envGet (env : EnvState) (var : String) : Option String :=
  if var = "MAZER_CONFIG" then env.mazer_config
  else if var = "ANSIBLE_GALAXY_CONFIG" then env.ansible_galaxy_config
  else none

/-- The loop body of `get_config_path_from_env`: walk the variable names in
order, returning the first whose value is truthy (`if raw_config_file_path:`),
else `None`. -/
def config_path_loop (env : EnvState) : List String → Option String
  | [] => none
  | var :: rest =>
    match envGet env var with
    | some p => if p ≠ "" then some p else config_path_loop env rest
    | none => config_path_loop env rest

/-- Function `get_config_path_from_env()`: tries `MAZER_CONFIG` then
`ANSIBLE_GALAXY_CONFIG`. -/
def get_config_path_from_env (env : EnvState) : Option String :=
  config_path_loop env ["MAZER_CONFIG", "ANSIBLE_GALAXY_CONFIG"]

/-- Modelled from the spec: `defaults.CONFIG_FILE` lives in
`ansible_galaxy.config.defaults`, which is not under `src/`; the spec calls
it "the built-in default path" for a configuration file named `mazer.yml`
under the home directory of the user.  Its exact value does not affect any precedence
claim beyond being a fixed non-empty constant. -/
def defaults_CONFIG_FILE : String := "~/.ansible/mazer.yml"

/-- The configuration-file path computed at the top of `GalaxyCLI.run`:
`os.path.abspath(os.path.expanduser(get_config_path_from_env() or
defaults.CONFIG_FILE))`. -/
def resolved_config_file_path (env : EnvState) (home cwd : String) : String :=
  abspath cwd (expanduserStr home
    ((get_config_path_from_env env).getD defaults_CONFIG_FILE))

/-- Model of `hasattr(options, ...)` for `content_path` followed by reading the attribute:
the value the local `options_content_path` holds in `_get_galaxy_context`. -/
def options_content_path (options : CLIOptions) : Option String :=
  options.content_path.getD none

/-- Model of `hasattr` plus truthiness for `global_install`:
the attribute exists and its value is truthy. -/
def global_install_truthy (options : CLIOptions) : Bool :=
  match options.global_install with
  | some v => v = some true
  | none => false

/-- The raw (pre-`expanduser`) content path `_get_galaxy_context` settles
on: `options_content_path or config.content_path`, then *overridden* by
`config.global_content_path` whenever the global-install flag is truthy. -/
def raw_content_path (options : CLIOptions) (config : GalaxyConfig) :
    Option String :=
  if global_install_truthy options then config.global_content_path
  else pyOr (options_content_path options) config.content_path

/-- Method `GalaxyCLI._get_galaxy_context(options, config)`: resolves the content
path (raising `TypeError` via `expanduser` when it resolves to `None`),
copies the server block of the configuration and applies the truthy
command-line overrides, and returns the `GalaxyContext`.  `home` is the
home directory `os.path.expanduser` consults. -/
def get_galaxy_context (home : String) (options : CLIOptions)
    (config : GalaxyConfig) : Except PyExc GalaxyContext := do
  let content_path ← expanduser home (raw_content_path options config)
  let server₀ := config.server
  let server₁ :=
    if strTruthy options.server_url then
      { server₀ with url := options.server_url.getD "" }
    else server₀
  let server₂ :=
    if options.ignore_certs = some true then
      { server₁ with ignore_certs := true }
    else server₁
  .ok { server := server₂, content_path := content_path }

/-- The cross-flag validation at the end of `GalaxyCLI.parse`: for the
`install` action, a truthy `content_path` together with a truthy
`global_install` is rejected (`and` of the two `getattr` values). -/
def install_mutex_violation (options : CLIOptions) : Bool :=
  strTruthy (options_content_path options) && global_install_truthy options

/-- The `CliOptionsError` message `parse` raises on the mutual-exclusion
violation. -/
def mutex_error_msg : String := "--content-path and --global are mutually exclusive"

/-- The final validation step of `parse` (the option registration itself is
schema bookkeeping with no further observable effect in scope). -/
def parse_validate (action : CliAction) (options : CLIOptions) :
    Except PyExc Unit :=
  if action = .install ∧ install_mutex_violation options then
    .error (.cliOptionsError mutex_error_msg)
  else .ok ()

/-- Method `GalaxyCLI.execute_info`: rejects an empty positional-argument list
with `CliOptionsError` before doing any work; otherwise builds the
context and invokes the external `info` handler (`hres` is its outcome). -/
def execute_info (home : String) (options : CLIOptions)
    (config : GalaxyConfig) (args : List String) (hres : Except PyExc Nat) :
    List Event × Except PyExc Nat :=
  if args.length = 0 then
    ([], .error (.cliOptionsError "- you must specify a user/role name"))
  else
    match get_galaxy_context home options config with
    | .error e => ([], .error e)
    | .ok _ => ([.contextBuilt, .invoked ⟨.info, none⟩], hres)

/-- Method `GalaxyCLI.execute_remove`: rejects an empty positional-argument list
with `CliOptionsError`; otherwise builds the context, constructs
`MatchLabels(args)` and invokes the external `remove` handler. -/
def execute_remove (home : String) (options : CLIOptions)
    (config : GalaxyConfig) (args : List String) (hres : Except PyExc Nat) :
    List Event × Except PyExc Nat :=
  if args.length = 0 then
    ([], .error (.cliOptionsError "- you must specify at least one role to remove."))
  else
    match get_galaxy_context home options config with
    | .error e => ([], .error e)
    | .ok _ => ([.contextBuilt, .invoked ⟨.remove, some (.matchLabels args)⟩], hres)

/-- Method `GalaxyCLI.execute_list`: builds the context, constructs `MatchAll()`
when no positional arguments were given and `MatchNamespacesOrLabels(args)`
otherwise, and invokes the external `list` handler. -/
def execute_list (home : String) (options : CLIOptions)
    (config : GalaxyConfig) (args : List String) (hres : Except PyExc Nat) :
    List Event × Except PyExc Nat :=
  match get_galaxy_context home options config with
  | .error e => ([], .error e)
  | .ok _ =>
    let match_filter :=
      if args.isEmpty then MatchFilter.matchAll
      else MatchFilter.matchNamespacesOrLabels args
    ([.contextBuilt, .invoked ⟨.list, some match_filter⟩], hres)

/-- Method `GalaxyCLI.execute_install`: builds the context and invokes the
external `install` handler inside `try/except Exception`: any exception
`e` is logged (`log.exception(e)`) and then re-raised by a bare `raise`,
i.e. the identical exception object propagates. -/
def execute_install (home : String) (options : CLIOptions)
    (config : GalaxyConfig) (args : List String) (hres : Except PyExc Nat) :
    List Event × Except PyExc Nat :=
  match get_galaxy_context home options config with
  | .error e => ([], .error e)
  | .ok _ =>
    match hres with
    | .error e => ([.contextBuilt, .invoked ⟨.install, none⟩, .loggedException], .error e)
    | .ok rc => ([.contextBuilt, .invoked ⟨.install, none⟩], .ok rc)

/-- Method `GalaxyCLI.execute_build`: builds the context, derives the build
context from the options/cwd, and invokes the external `build` handler;
no try/except surrounds the handler call. -/
def execute_build (home : String) (options : CLIOptions)
    (config : GalaxyConfig) (args : List String) (hres : Except PyExc Nat) :
    List Event × Except PyExc Nat :=
  match get_galaxy_context home options config with
  | .error e => ([], .error e)
  | .ok _ => ([.contextBuilt, .invoked ⟨.build, none⟩], hres)

/-- Method `GalaxyCLI.execute_version`: needs no execution context; invokes the
external `version` handler with the configuration file path. -/
def execute_version (home : String) (options : CLIOptions)
    (config : GalaxyConfig) (args : List String) (hres : Except PyExc Nat) :
    List Event × Except PyExc Nat :=
  ([.invoked ⟨.version, none⟩], hres)

/-- The action dispatch of `execute` (dynamic `execute_<action>` lookup in
the source, a total table here). -/
def execute (action : CliAction) (home : String) (options : CLIOptions)
    (config : GalaxyConfig) (args : List String) (hres : Except PyExc Nat) :
    List Event × Except PyExc Nat :=
  match action with
  | .build => execute_build home options config args hres
  | .info => execute_info home options config args hres
  | .install => execute_install home options config args hres
  | .list => execute_list home options config args hres
  | .remove => execute_remove home options config args hres
  | .version => execute_version home options config args hres

/-- One CLI invocation after option parsing proper: the final validation
of `parse` runs first (the base class parses before `run` executes, per
the `parsing → executing` flow of the spec); then `run` resolves and loads the
configuration, builds the execution context once and creates the REST-API
collaborator, and dispatches to `execute_<action>`.  The event trace
records every context construction, the API-collaborator creation, each
handler invocation, and dispatcher-level exception logging; an error with
an empty trace therefore means the invocation failed before any context
was built or collaborator touched. -/
def cli_main (action : CliAction) (home : String) (options : CLIOptions)
    (config : GalaxyConfig) (args : List String) (hres : Except PyExc Nat) :
    List Event × Except PyExc Nat :=
  match parse_validate action options with
  | .error e => ([], .error e)
  | .ok _ =>
    match get_galaxy_context home options config with
    | .error e => ([], .error e)
    | .ok _ =>
      let r := execute action home options config args hres
      ([Event.contextBuilt, Event.apiCreated] ++ r.1, r.2)

/-- Helper: the handler invocations recorded in an event trace. -/
def invocations : List Event → List HandlerCall
  | [] => []
  | .invoked c :: rest => c :: invocations rest
  | _ :: rest => invocations rest

/-- Helper: did the dispatcher itself log an exception during the trace? -/
def dispatcher_logged (t : List Event) : Bool :=
  t.any (fun e => e = Event.loggedException)

/-- Helper: does the raw content path resolved by `_get_galaxy_context`
carry the home-directory shorthand that `expanduser` would rewrite? -/
def raw_path_has_tilde (options : CLIOptions) (config : GalaxyConfig) : Bool :=
  match raw_content_path options config with
  | some s => hasTilde s
  | none => false

/-- Helper lemma: projecting the content path out of `_get_galaxy_context`
gives exactly the home expansion of the resolved raw content path. -/
theorem get_galaxy_context_content_path (home : String) (options : CLIOptions)
    (config : GalaxyConfig) :
    (get_galaxy_context home options config).map GalaxyContext.content_path =
      expanduser home (raw_content_path options config) := by
  unfold get_galaxy_context
  cases hx : expanduser home (raw_content_path options config) <;> rfl

/-- C1 counterexample: with the content-path option present and truthy
(`-C /opt/c`) and the global-install flag set, `_get_galaxy_context`
resolves the content path to the configured `global_content_path`
(`/gcp`), not to the options content-path (`/opt/c`) as the claim
predicts: the global-install override wins, not the options flag. -/
theorem C1_counterexample :
    (get_galaxy_context "/home/u"
        { content_path := some (some "/opt/c"),
          global_install := some (some true),
          server_url := none, ignore_certs := none }
        { server := { url := "https://galaxy.example", ignore_certs := false },
          content_path := some "/cfg", global_content_path := some "/gcp" }).map
      GalaxyContext.content_path = Except.ok "/gcp" ∧
    ("/gcp" : String) ≠ "/opt/c" := by
  exact ⟨rfl, by decide⟩

/-- C1 (amended): the content path of the execution context built by
`_get_galaxy_context` is the home expansion of: the configured
`global_content_path` whenever the global-install option is set (this
override wins even when the content-path option is also present);
otherwise the options content-path when that option is present and
non-empty; otherwise the configured `content_path`. -/
theorem C1_content_path_precedence (home : String) (options : CLIOptions)
    (config : GalaxyConfig) :
    (get_galaxy_context home options config).map GalaxyContext.content_path =
      expanduser home
        (if global_install_truthy options then config.global_content_path
         else if strTruthy (options_content_path options) then options_content_path options
         else config.content_path) := by
  have hraw : raw_content_path options config =
      (if global_install_truthy options then config.global_content_path
       else if strTruthy (options_content_path options) then options_content_path options
       else config.content_path) := by
    unfold raw_content_path pyOr
    rfl
  rw [← hraw]
  exact get_galaxy_context_content_path home options config

/-- C2 counterexample: the mutual-exclusion check at the end of `parse`
tests Python truthiness, not presence.  With the content-path option set
to the empty string (`--content-path=""`, so the option *is* set) and the
global-install option set, parsing raises nothing: the invocation builds
the execution context, creates the REST-API collaborator, and invokes the
install handler — refuting the claim that every invocation with both
options set fails with `CliOptionsError`. -/
theorem C2_counterexample :
    cli_main .install "/home/u"
      { content_path := some (some ""), global_install := some (some true),
        server_url := none, ignore_certs := none }
      { server := { url := "u", ignore_certs := false },
        content_path := some "/c", global_content_path := some "/g" }
      ["pkg"] (.ok 0) =
      ([.contextBuilt, .apiCreated, .contextBuilt, .invoked ⟨.install, none⟩],
        .ok 0) := rfl

/-- C2 (amended): for the `install` action with the content-path option
set to a non-empty value and the global-install option set, the
invocation fails during parsing with the mutual-exclusion
`CliOptionsError`, with an empty event trace: no execution context is
built, no REST-API collaborator is created, and no handler is invoked. -/
theorem C2_mutual_exclusion (home : String) (options : CLIOptions)
    (config : GalaxyConfig) (args : List String) (hres : Except PyExc Nat)
    (hc : strTruthy (options_content_path options) = true)
    (hg : global_install_truthy options = true) :
    cli_main .install home options config args hres =
      ([], .error (.cliOptionsError mutex_error_msg)) := by
  unfold cli_main parse_validate install_mutex_violation
  simp [hc, hg]

/-- Witness for C2 at a concrete invocation. -/
theorem C2_mutual_exclusion_witness :
    cli_main .install "/home/u"
      { content_path := some (some "/p"), global_install := some (some true),
        server_url := none, ignore_certs := none }
      { server := { url := "u", ignore_certs := false },
        content_path := some "/c", global_content_path := some "/g" }
      ["pkg"] (.ok 0) =
      ([], .error (.cliOptionsError mutex_error_msg)) :=
  C2_mutual_exclusion _ _ _ _ _ (by decide) (by decide)

/-- The raw configuration-file path exactly as claim C3 words it
(spec-side definition, for comparison with the code): the primary
variable when set to a non-empty value, otherwise the legacy alternate
whenever it is set at all, otherwise the built-in default. -/
def claimC3_raw_config_path (env : EnvState) : String :=
  if strTruthy env.mazer_config then env.mazer_config.getD ""
  else
    match env.ansible_galaxy_config with
    | some v => v
    | none => defaults_CONFIG_FILE

/-- C3 counterexample: with the primary variable unset and the legacy
variable set to the empty string, the code skips the legacy variable
(its loop tests truthiness, not presence) and uses the built-in default,
whereas the claim says the legacy value is used whenever the variable is
set.  The resolved paths differ at this environment. -/
theorem C3_counterexample :
    resolved_config_file_path
        { mazer_config := none, ansible_galaxy_config := some "" }
        "/home/u" "/work" =
      "/home/u/.ansible/mazer.yml" ∧
    abspath "/work" (expanduserStr "/home/u"
        (claimC3_raw_config_path
          { mazer_config := none, ansible_galaxy_config := some "" })) =
      "/work" ∧
    ("/home/u/.ansible/mazer.yml" : String) ≠ "/work" := by
  refine ⟨rfl, rfl, by decide⟩

/-- C3 (amended): the raw configuration-file path is the primary variable
(`MAZER_CONFIG`) when set to a non-empty value, otherwise the legacy
alternate (`ANSIBLE_GALAXY_CONFIG`) when set to a non-empty value,
otherwise the built-in default; the chosen raw path is home-expanded and
made absolute before being handed to the configuration loader. -/
theorem C3_config_path_precedence (env : EnvState) (home cwd : String) :
    resolved_config_file_path env home cwd =
      abspath cwd (expanduserStr home
        (if strTruthy env.mazer_config then env.mazer_config.getD ""
         else if strTruthy env.ansible_galaxy_config then env.ansible_galaxy_config.getD ""
         else defaults_CONFIG_FILE)) := by
  have hloop : get_config_path_from_env env =
      (if strTruthy env.mazer_config then env.mazer_config
       else if strTruthy env.ansible_galaxy_config then env.ansible_galaxy_config
       else none) := by
    rcases env with ⟨m, a⟩
    cases m with
    | none =>
      cases a with
      | none => rfl
      | some s =>
        by_cases hs : s = "" <;>
          simp [get_config_path_from_env, config_path_loop, envGet, strTruthy, hs]
    | some s =>
      cases a with
      | none =>
        by_cases hs : s = "" <;>
          simp [get_config_path_from_env, config_path_loop, envGet, strTruthy, hs]
      | some t =>
        by_cases hs : s = "" <;> by_cases ht : t = "" <;>
          simp [get_config_path_from_env, config_path_loop, envGet, strTruthy, hs, ht]
  unfold resolved_config_file_path
  rw [hloop]
  by_cases hm : strTruthy env.mazer_config <;>
    by_cases ha : strTruthy env.ansible_galaxy_config <;>
      simp [hm, ha]
  · cases hv : env.mazer_config with
    | none => rw [hv] at hm; simp [strTruthy] at hm
    | some v => rfl
  · cases hv : env.mazer_config with
    | none => rw [hv] at hm; simp [strTruthy] at hm
    | some v => rfl
  · cases hv : env.ansible_galaxy_config with
    | none => rw [hv] at ha; simp [strTruthy] at ha
    | some v => rfl

/-- C4: dispatch of the `info` and `remove` actions with an empty
positional-argument list raises `CliOptionsError` with an empty event
trace, and across the whole invocation pipeline no handler is ever
invoked for them. -/
theorem C4_empty_args_rejected (home : String) (options : CLIOptions)
    (config : GalaxyConfig) (hres : Except PyExc Nat) :
    execute_info home options config [] hres =
      ([], .error (.cliOptionsError "- you must specify a user/role name")) ∧
    execute_remove home options config [] hres =
      ([], .error (.cliOptionsError "- you must specify at least one role to remove.")) ∧
    invocations (cli_main .info home options config [] hres).1 = [] ∧
    invocations (cli_main .remove home options config [] hres).1 = [] := by
  refine ⟨rfl, rfl, ?_, ?_⟩ <;>
    · unfold cli_main parse_validate
      cases hctx : get_galaxy_context home options config <;>
        simp [hctx, execute, execute_info, execute_remove, invocations]

/-- C5: a call to `exit_without_ignore` with a truthy `ignore_errors`
returns without raising; a call with `ignore_errors` falsy raises
`GalaxyCliError` whose message ends with the fixed guidance suffix
(`... = pre ++ ignore_error_blurb`) and starts with the supplied
explanatory message when one is given (`... = msg ++ suf`). -/
theorem C5_exit_without_ignore (msg : Option String) :
    exit_without_ignore true msg = .ok () ∧
    ∃ pre suf,
      exit_without_ignore false msg =
        .error (.galaxyCliError (pre ++ ignore_error_blurb)) ∧
      pre ++ ignore_error_blurb = (msg.getD "") ++ suf := by
  refine ⟨rfl, ?_⟩
  by_cases hm : strTruthy msg
  · refine ⟨(msg.getD "") ++ ":\n", ":\n" ++ ignore_error_blurb, ?_, ?_⟩
    · simp [exit_without_ignore, hm, String.append_assoc]
    · rw [String.append_assoc]
  · refine ⟨"", ignore_error_blurb, ?_, ?_⟩
    · simp [exit_without_ignore, hm]
    · cases hv : msg with
      | none => rfl
      | some v =>
        rw [hv] at hm
        simp [strTruthy] at hm
        subst hm
        rfl

/-- C6: whenever the execution context builds, `execute_remove` (whose
argument list is non-empty by its precondition check) passes
`MatchLabels(args)` to the handler; `execute_list` passes
`MatchNamespacesOrLabels(args)` when positional arguments are supplied and
`MatchAll` when none are. -/
theorem C6_match_filters (home : String) (options : CLIOptions)
    (config : GalaxyConfig) (args : List String) (hres : Except PyExc Nat)
    (ctx : GalaxyContext)
    (hctx : get_galaxy_context home options config = .ok ctx)
    (hargs : args ≠ []) :
    execute_remove home options config args hres =
      ([.contextBuilt, .invoked ⟨.remove, some (.matchLabels args)⟩], hres) ∧
    execute_list home options config args hres =
      ([.contextBuilt, .invoked ⟨.list, some (.matchNamespacesOrLabels args)⟩], hres) ∧
    execute_list home options config [] hres =
      ([.contextBuilt, .invoked ⟨.list, some .matchAll⟩], hres) := by
  cases args with
  | nil => cases hargs rfl
  | cons x xs =>
    refine ⟨?_, ?_, ?_⟩ <;>
      simp [execute_remove, execute_list, hctx, List.isEmpty]

/-- Witness for C6 at a concrete invocation. -/
theorem C6_match_filters_witness :
    execute_remove "/h"
        { content_path := some none, global_install := none,
          server_url := none, ignore_certs := none }
        { server := { url := "u", ignore_certs := false },
          content_path := some "/c", global_content_path := none }
        ["a", "b"] (.ok 0) =
      ([.contextBuilt, .invoked ⟨.remove, some (.matchLabels ["a", "b"])⟩], .ok 0) ∧
    execute_list "/h"
        { content_path := some none, global_install := none,
          server_url := none, ignore_certs := none }
        { server := { url := "u", ignore_certs := false },
          content_path := some "/c", global_content_path := none }
        ["a", "b"] (.ok 0) =
      ([.contextBuilt, .invoked ⟨.list, some (.matchNamespacesOrLabels ["a", "b"])⟩], .ok 0) ∧
    execute_list "/h"
        { content_path := some none, global_install := none,
          server_url := none, ignore_certs := none }
        { server := { url := "u", ignore_certs := false },
          content_path := some "/c", global_content_path := none }
        [] (.ok 0) =
      ([.contextBuilt, .invoked ⟨.list, some .matchAll⟩], .ok 0) :=
  C6_match_filters "/h" _ _ ["a", "b"] (.ok 0)
    { server := { url := "u", ignore_certs := false }, content_path := "/c" }
    rfl (by decide)

/-- C7 counterexample: for the `info` action, an unexpected exception
raised by the external handler is re-raised unchanged, but the dispatcher
does not log it: its event trace carries no logging event, refuting the
claim that *every* action logs handler failures with full detail (only
`execute_install` wraps its handler call in the log-and-reraise guard). -/
theorem C7_counterexample :
    execute_info "/h"
        { content_path := some none, global_install := none,
          server_url := none, ignore_certs := none }
        { server := { url := "u", ignore_certs := false },
          content_path := some "/c", global_content_path := none }
        ["x"] (.error (.other 7)) =
      ([.contextBuilt, .invoked ⟨.info, none⟩], .error (.other 7)) ∧
    dispatcher_logged [Event.contextBuilt, .invoked ⟨.info, none⟩] = false := by
  exact ⟨rfl, by decide⟩

/-- C7 (amended): for the `install` action, every exception raised by the
external handler is logged by the dispatcher and re-raised identical; for
each of the other actions (given the positional-argument precondition and
a buildable context) the exception propagates unchanged, but without any
dispatcher-level logging — none of their event traces contains a logging
event. -/
theorem C7_unexpected_exception_handling (home : String) (options : CLIOptions)
    (config : GalaxyConfig) (args : List String) (e : PyExc)
    (ctx : GalaxyContext)
    (hctx : get_galaxy_context home options config = .ok ctx)
    (hargs : args ≠ []) :
    execute_install home options config args (.error e) =
      ([.contextBuilt, .invoked ⟨.install, none⟩, .loggedException], .error e) ∧
    execute_build home options config args (.error e) =
      ([.contextBuilt, .invoked ⟨.build, none⟩], .error e) ∧
    execute_info home options config args (.error e) =
      ([.contextBuilt, .invoked ⟨.info, none⟩], .error e) ∧
    execute_remove home options config args (.error e) =
      ([.contextBuilt, .invoked ⟨.remove, some (.matchLabels args)⟩], .error e) ∧
    execute_list home options config args (.error e) =
      ([.contextBuilt, .invoked ⟨.list, some (.matchNamespacesOrLabels args)⟩], .error e) ∧
    execute_version home options config args (.error e) =
      ([.invoked ⟨.version, none⟩], .error e) := by
  cases args with
  | nil => cases hargs rfl
  | cons x xs =>
    refine ⟨?_, ?_, ?_, ?_, ?_, ?_⟩ <;>
      simp [execute_install, execute_build, execute_info, execute_remove,
            execute_list, execute_version, hctx, List.isEmpty]

/-- Witness for the amended C7 at a concrete invocation. -/
theorem C7_unexpected_exception_handling_witness :
    execute_install "/h"
        { content_path := some none, global_install := none,
          server_url := none, ignore_certs := none }
        { server := { url := "u", ignore_certs := false },
          content_path := some "/c", global_content_path := none }
        ["x"] (.error (.other 7)) =
      ([.contextBuilt, .invoked ⟨.install, none⟩, .loggedException],
        .error (.other 7)) :=
  (C7_unexpected_exception_handling "/h"
    { content_path := some none, global_install := none,
      server_url := none, ignore_certs := none }
    { server := { url := "u", ignore_certs := false },
      content_path := some "/c", global_content_path := none }
    ["x"] (.other 7)
    { server := { url := "u", ignore_certs := false }, content_path := "/c" }
    rfl (by decide)).1

/-- C8 counterexample: with no content-path option value, the
global-install flag unset, and the configured `content_path` equal to the
empty string, `_get_galaxy_context` does not fail — it returns an
execution context whose content path is empty, exactly what the claim
says must not happen. -/
theorem C8_counterexample :
    strTruthy (options_content_path
      { content_path := some none, global_install := some none,
        server_url := none, ignore_certs := none }) = false ∧
    global_install_truthy
      { content_path := some none, global_install := some none,
        server_url := none, ignore_certs := none } = false ∧
    get_galaxy_context "/h"
        { content_path := some none, global_install := some none,
          server_url := none, ignore_certs := none }
        { server := { url := "u", ignore_certs := false },
          content_path := some "", global_content_path := none } =
      .ok { server := { url := "u", ignore_certs := false },
            content_path := "" } := by
  exact ⟨rfl, rfl, rfl⟩

/-- C8 (amended): when no content path is resolvable from the options or
the global-install override, `_get_galaxy_context` is driven entirely by
the configured `content_path`: if that is absent (`None`), the call
crashes with a `TypeError` from `os.path.expanduser(None)` — an
unhandled, not a deliberate, failure — and if it is the empty string the
call *succeeds* with an execution context whose content path is empty. -/
theorem C8_no_resolvable_content_path (home : String) (options : CLIOptions)
    (config : GalaxyConfig)
    (hno : strTruthy (options_content_path options) = false)
    (hng : global_install_truthy options = false) :
    (config.content_path = none →
      get_galaxy_context home options config = .error .typeError) ∧
    (config.content_path = some "" →
      (get_galaxy_context home options config).map GalaxyContext.content_path =
        .ok "") := by
  have hraw : raw_content_path options config = config.content_path := by
    unfold raw_content_path pyOr
    simp [hno, hng]
  constructor
  · intro h
    unfold get_galaxy_context
    rw [hraw, h]
    rfl
  · intro h
    rw [get_galaxy_context_content_path, hraw, h]
    rfl

/-- Witness for the amended C8 at concrete inputs. -/
theorem C8_no_resolvable_content_path_witness :
    get_galaxy_context "/h"
        { content_path := some none, global_install := some none,
          server_url := none, ignore_certs := none }
        { server := { url := "u", ignore_certs := false },
          content_path := none, global_content_path := none } =
      .error .typeError ∧
    (get_galaxy_context "/h"
        { content_path := some none, global_install := some none,
          server_url := none, ignore_certs := none }
        { server := { url := "u", ignore_certs := false },
          content_path := some "", global_content_path := none }).map
      GalaxyContext.content_path = .ok "" :=
  ⟨(C8_no_resolvable_content_path "/h" _ _ (by decide) (by decide)).1 rfl,
   (C8_no_resolvable_content_path "/h" _ _ (by decide) (by decide)).2 rfl⟩

/-- C9 counterexample: `_get_galaxy_context` is not free of ambient state.
With equal options and equal configuration (content path `~/content`),
two runs under different home directories — the environment consulted by
`os.path.expanduser` — produce different execution contexts. -/
theorem C9_counterexample :
    (get_galaxy_context "/home/alice"
        { content_path := some none, global_install := none,
          server_url := none, ignore_certs := none }
        { server := { url := "u", ignore_certs := false },
          content_path := some "~/content", global_content_path := none }).map
      GalaxyContext.content_path = .ok "/home/alice/content" ∧
    (get_galaxy_context "/home/bob"
        { content_path := some none, global_install := none,
          server_url := none, ignore_certs := none }
        { server := { url := "u", ignore_certs := false },
          content_path := some "~/content", global_content_path := none }).map
      GalaxyContext.content_path = .ok "/home/bob/content" ∧
    ("/home/alice/content" : String) ≠ "/home/bob/content" := by
  exact ⟨rfl, rfl, by decide⟩

/-- C9 (amended): `_get_galaxy_context` is deterministic given its two
inputs *and* the home directory consulted by `os.path.expanduser` — the
only ambient dependence is home-directory expansion: whenever the
resolved raw content path does not begin with the `~` shorthand, the
result is independent of the home directory. -/
theorem C9_deterministic_modulo_home (options : CLIOptions)
    (config : GalaxyConfig) (h₁ h₂ : String)
    (hnt : raw_path_has_tilde options config = false) :
    get_galaxy_context h₁ options config = get_galaxy_context h₂ options config := by
  unfold raw_path_has_tilde at hnt
  unfold get_galaxy_context
  cases hr : raw_content_path options config with
  | none => rfl
  | some s =>
    rw [hr] at hnt
    have hs : hasTilde s = false := hnt
    have he : expanduserStr h₁ s = expanduserStr h₂ s := by
      unfold expanduserStr
      cases hd : s.data with
      | nil => rfl
      | cons c rest =>
        have hc : c ≠ '~' := by
          intro hceq
          have htrue : hasTilde s = true := by
            unfold hasTilde
            rw [hd, hceq]
            rfl
          rw [htrue] at hs
          cases hs
        simp [hc]
    simp [expanduser, he]

/-- Witness for the amended C9 at a concrete input. -/
theorem C9_deterministic_modulo_home_witness :
    get_galaxy_context "/home/alice"
        { content_path := some (some "/abs/path"), global_install := none,
          server_url := none, ignore_certs := none }
        { server := { url := "u", ignore_certs := false },
          content_path := some "/c", global_content_path := none } =
      get_galaxy_context "/home/bob"
        { content_path := some (some "/abs/path"), global_install := none,
          server_url := none, ignore_certs := none }
        { server := { url := "u", ignore_certs := false },
          content_path := some "/c", global_content_path := none } :=
  C9_deterministic_modulo_home
    { content_path := some (some "/abs/path"), global_install := none,
      server_url := none, ignore_certs := none }
    { server := { url := "u", ignore_certs := false },
      content_path := some "/c", global_content_path := none }
    "/home/alice" "/home/bob" (by decide)

/-- Helper lemma: a closed form for `_get_galaxy_context`, separating the
content-path resolution from the server overrides. -/
theorem get_galaxy_context_eq (home : String) (options : CLIOptions)
    (config : GalaxyConfig) :
    get_galaxy_context home options config =
      (expanduser home (raw_content_path options config)).map
        (fun cp =>
          { server :=
              { url :=
                  if strTruthy options.server_url then options.server_url.getD ""
                  else config.server.url,
                ignore_certs :=
                  if options.ignore_certs = some true then true
                  else config.server.ignore_certs },
            content_path := cp }) := by
  unfold get_galaxy_context
  cases hx : expanduser home (raw_content_path options config) with
  | error e => rfl
  | ok cp =>
    by_cases hu : strTruthy options.server_url <;>
      by_cases hi : options.ignore_certs = some true <;>
        simp [hu, hi, Except.map] <;> rfl

/-- C10: the server overrides of `_get_galaxy_context` are asymmetric:
the resulting URL is the options server URL exactly when that option is a
non-empty value, the configured URL otherwise; the resulting
`ignore_certs` is forced to `true` exactly when the ignore-certs flag
(a `store_true` flag defaulting to `None`) is truthy, and is the
configured value otherwise — in particular a configuration with
`ignore_certs` already `true` yields `true` for every possible options
record, so the command line can never override it back to `false`.  (In
this embedding the configuration document is a pure value, so the copy of
the server block in the source corresponds to the fact that the input
`config` is not — and cannot be — mutated by context building.) -/
theorem C10_server_overrides (home : String) (options : CLIOptions)
    (config : GalaxyConfig) (ctx : GalaxyContext)
    (hctx : get_galaxy_context home options config = .ok ctx) :
    ctx.server.url =
      (if strTruthy options.server_url then options.server_url.getD ""
       else config.server.url) ∧
    ctx.server.ignore_certs =
      (if options.ignore_certs = some true then true
       else config.server.ignore_certs) ∧
    (config.server.ignore_certs = true → ctx.server.ignore_certs = true) := by
  rw [get_galaxy_context_eq] at hctx
  cases hx : expanduser home (raw_content_path options config) with
  | error e =>
    rw [hx] at hctx
    simp [Except.map] at hctx
  | ok cp =>
    rw [hx] at hctx
    simp [Except.map] at hctx
    subst hctx
    refine ⟨rfl, ?_, ?_⟩
    · by_cases hi : options.ignore_certs = some true <;> simp [hi]
    · intro h
      by_cases hi : options.ignore_certs = some true <;> simp [hi, h]

/-- Witness for C10 at a concrete invocation. -/
theorem C10_server_overrides_witness :
    (({ url := "https://override", ignore_certs := true } : ServerInfo).url =
      (if strTruthy (some "https://override") then
        (some "https://override").getD "" else "https://cfg")) ∧
    (({ url := "https://override", ignore_certs := true } : ServerInfo).ignore_certs =
      (if (some true : Option Bool) = some true then true else true)) ∧
    (true = true →
      ({ url := "https://override", ignore_certs := true } : ServerInfo).ignore_certs = true) :=
  C10_server_overrides "/h"
    { content_path := some (some "/c"), global_install := none,
      server_url := some "https://override", ignore_certs := some true }
    { server := { url := "https://cfg", ignore_certs := true },
      content_path := some "/cfg", global_content_path := none }
    { server := { url := "https://override", ignore_certs := true },
      content_path := "/c" }
    rfl
